import Mathlib

/-!
# A shallow embedding of the pygweblet routing and dispatch core

This file embeds, in Lean, the parts of the `pygweblet` package that the
verified statements below are about:

* `pygweblet/router.py` — URI-path compilation from file-system paths
  (`_make_path_from`) and route-table construction (`_load_program`,
  `_load_template`);
* `pygweblet/route.py` — handler-parameter classification
  (`_extrapolate_program_params`) and the HTTP dispatch (`PygWebRoute.handle`);
* `pygweblet/websocket.py` — the WebSocket envelope parsing (`parse`),
  per-message dispatch (`handle_message`) and the per-connection read loop
  (`handle`);
* `pygweblet/packet.py` — packet handler invocation (`PygWebPacket.handle`).

Python strings are embedded as Lean `String` (or `List Char` where the
statement is about individual characters), Python dicts keyed by strings as
association lists, JSON values as the inductive `JValue`, and fallible
Python code as `Except String`.  External collaborators (the JSON codec,
the template renderer) are modelled at their interface boundary: a decoded
inbound text frame is an `Except String JValue` (the `.error` case carries
the `json.JSONDecodeError` text), and the template renderer is a function
argument `render : String → List (String × String) → String`.
-/

namespace PygWeb

/-- JSON values, the universe of `json.loads` results: JSON object keys are
always strings. -/
inductive JValue where
  | null : JValue
  | bool : Bool → JValue
  | num : Int → JValue
  | str : String → JValue
  | arr : List JValue → JValue
  | obj : List (String × JValue) → JValue

/-- Is the value a JSON object (a Python `dict`)?  Models `isinstance(x, dict)`. -/
def JValue.isObj : JValue → Bool
  | .obj _ => true
  | _ => false

mutual

/-- Model of `json.dumps` on a `JValue` (string escaping is not modelled;
the values serialized in this development contain no characters that
`json.dumps` would escape). -/
def serialize : JValue → String
  | .null => "null"
  | .bool true => "true"
  | .bool false => "false"
  | .num n => toString n
  | .str s => "\"" ++ s ++ "\""
  | .arr xs => "[" ++ serializeList xs ++ "]"
  | .obj fs => "\x7b" ++ serializeFields fs ++ "\x7d"

/-- Comma-joined serialization of a JSON array's elements. -/
def serializeList : List JValue → String
  | [] => ""
  | [x] => serialize x
  | x :: y :: xs => serialize x ++ ", " ++ serializeList (y :: xs)

/-- Comma-joined serialization of a JSON object's fields. -/
def serializeFields : List (String × JValue) → String
  | [] => ""
  | [f] => "\"" ++ f.1 ++ "\": " ++ serialize f.2
  | f :: g :: fs =>
      "\"" ++ f.1 ++ "\": " ++ serialize f.2 ++ ", " ++ serializeFields (g :: fs)

end

/-- `dict.get` on a string-keyed association list: the value at the first
matching key, or `none`. -/
def dictGetStr (l : List (String × String)) (k : String) : Option String :=
  match l with
  | [] => none
  | (k0, v0) :: rest => if k0 = k then some v0 else dictGetStr rest k

/-- The roles a handler parameter can play; embeds the `RouteParameter`
enumeration (`pygweblet/parameter.py`, whose members are read off its uses
in `route.py`: `INSTANCE`, `REQUEST`, `DYNAMIC_PART`, `QUERY`,
`QUERY_OR_POST`). -/
inductive RouteParameter where
  | INSTANCE : RouteParameter
  | REQUEST : RouteParameter
  | DYNAMIC_PART : RouteParameter
  | QUERY : RouteParameter
  | QUERY_OR_POST : RouteParameter
deriving DecidableEq

/-- `ACCEPT_POST_DATA` from `route.py`. -/
def ACCEPT_POST_DATA : List String := ["POST", "PUT"]

/-- `WEB_METHODS` from `router.py`. -/
def WEB_METHODS : List String :=
  ["DELETE", "GET", "HEAD", "OPTIONS", "PATCH", "POST", "PUT"]

/-- `"/".join(parts)` on character lists. -/
def joinSlash : List (List Char) → List Char
  | [] => []
  | [p] => p
  | p :: q :: ps => p ++ '/' :: joinSlash (q :: ps)

/-- Python `s.split("/")` on character lists: `""` splits to `[""]`,
`"a/"` to `["a", ""]`, and so on. -/
def splitSlash : List Char → List (List Char)
  | [] => [[]]
  | c :: rest =>
    if c = '/' then [] :: splitSlash rest
    else
      match splitSlash rest with
      | [] => [[c]]
      | seg :: segs => (c :: seg) :: segs

/-- Does the character list contain two adjacent slashes (`"//"`)? -/
def hasDoubleSlash : List Char → Bool
  | [] => false
  | [_] => false
  | a :: b :: rest => (a = '/' && b = '/') || hasDoubleSlash (b :: rest)

/-- The dynamic segment names of a URI path: from
`route.py:_extrapolate_program_params`, the parts of `path.split("/")` that
start with `{` and end with `}`, stripped of the braces (`part[1:-1]`).
The single-character `startswith`/`endswith` checks and the slice are taken
on the path's character list. -/
def dynamicParts (path : String) : List String :=
  ((splitSlash path.data).filter
      (fun part => part.head? = some '\x7b' && part.getLast? = some '\x7d')).map
    (fun part => String.mk (part.drop 1).dropLast)

/-- Classification of one handler parameter, the body of the loop in
`route.py:_extrapolate_program_params`.  `hasClass` is whether
`self.program_class` is set.  The `ValueError` message for `self` without a
class program is abridged (no quote characters); only the fact that the
construction fails is used below. -/
def classifyParam (path method : String) (hasClass : Bool) (name : String) :
    Except String RouteParameter :=
  if name = "self" then
    if hasClass then Except.ok RouteParameter.INSTANCE
    else
      Except.error
        ("the route " ++ path ++
          " has a program taking self as argument, but this is not a class program")
  else if name = "request" then Except.ok RouteParameter.REQUEST
  else if name ∈ dynamicParts path then Except.ok RouteParameter.DYNAMIC_PART
  else if method ∈ ACCEPT_POST_DATA then Except.ok RouteParameter.QUERY_OR_POST
  else Except.ok RouteParameter.QUERY

/-- `route.py:_extrapolate_program_params`: classify every declared
parameter of the handler, in declaration order, producing the
`program_params` mapping; raises (`Except.error`) when a parameter is named
`self` on a route without a program class.  (In the source this runs inside
`PygWebRoute.__init__`; a raise there aborts route construction.) -/
def extrapolateProgramParams (path method : String) (hasClass : Bool) :
    List String → Except String (List (String × RouteParameter))
  | [] => Except.ok []
  | name :: rest =>
    match classifyParam path method hasClass name with
    | Except.error e => Except.error e
    | Except.ok kind =>
      match extrapolateProgramParams path method hasClass rest with
      | Except.error e => Except.error e
      | Except.ok others => Except.ok ((name, kind) :: others)

/-- The values an HTTP handler keyword argument can be bound to:
the program-class instance (`inst true`; `inst false` embeds the local
`instance = None` of a route without a program class), the raw request
object, or an optional string from path/query/post data. -/
inductive BoundValue where
  | inst : Bool → BoundValue
  | req : BoundValue
  | strOpt : Option String → BoundValue
deriving DecidableEq

/-- A Python handler result, as consumed by `PygWebRoute.handle`: a plain
string (returned verbatim) or a mapping of template variables. -/
inductive ProgResult where
  | pstr : String → ProgResult
  | pdict : List (String × String) → ProgResult

/-- An HTTP handler: its declared parameter names (in order) and its body,
which receives the assembled keyword arguments and either returns a result
or raises. -/
structure RouteProgram where
  params : List String
  fn : List (String × BoundValue) → Except String ProgResult

/-- An HTTP request, at the interface consumed by `PygWebRoute.handle`:
`request.match_info`, `request.query` and the data `request.post()` would
return, each as a string-keyed mapping. -/
structure WebRequest where
  match_info : List (String × String)
  query : List (String × String)
  post_data : List (String × String)

/-- A `PygWebRoute`, restricted to the fields `handle` reads.  `program_class`
records whether `self.program_class` is set (the instance itself is opaque). -/
structure Route where
  path : String
  method : String
  program : Option RouteProgram
  program_class : Bool
  template : Option String

/-- `a or b` on `query.get(name)` / `post.get(name)` results: Python `or`
treats both `None` and the empty string as falsy. -/
def orFalsy (a b : Option String) : Option String :=
  match a with
  | some s => if s = "" then b else some s
  | none => b

/-- One keyword-argument binding, the body of the `for name, kind in
self.program_params.items()` loop in `route.py:handle`. -/
def bindParam (kind : RouteParameter) (hasClass : Bool)
    (info query post : List (String × String)) (name : String) : BoundValue :=
  match kind with
  | RouteParameter.INSTANCE => BoundValue.inst hasClass
  | RouteParameter.DYNAMIC_PART => BoundValue.strOpt (dictGetStr info name)
  | RouteParameter.REQUEST => BoundValue.req
  | RouteParameter.QUERY => BoundValue.strOpt (dictGetStr query name)
  | RouteParameter.QUERY_OR_POST =>
      BoundValue.strOpt (orFalsy (dictGetStr query name) (dictGetStr post name))

/-- The exception raised by `route.py` line 179, `post = await query.post()`:
the local `query` is either the initial plain dict `{}` or
`request.query` (a `MultiDictProxy`), and neither object has a `post`
attribute, so the attribute access raises `AttributeError`.  (The POST body
lives on `request`, not on `query`.) -/
def postAttributeError : String :=
  "AttributeError: the query mapping has no attribute post"

/-- `route.py:PygWebRoute.handle`.  Everything is guarded by
`if self.program:`; with no program the method falls through and returns
`None` (`Except.ok none`).  With a program, the parameter classification is
recomputed (the source computes it once in `__init__` and stores it; the
computation is deterministic, so recomputing is equivalent), the needed
data sources are materialized, the keyword arguments are bound, the program
is invoked, and a string result is returned verbatim while a mapping result
is fed to the attached template (if any) through the external renderer
`render`; with a mapping result and no template the method falls through
and returns `None`. -/
def routeHandle (route : Route)
    (render : String → List (String × String) → String)
    (request : WebRequest) : Except String (Option String) :=
  match route.program with
  | none => Except.ok none
  | some prog =>
    match extrapolateProgramParams route.path route.method
        route.program_class prog.params with
    | Except.error e => Except.error e
    | Except.ok prms =>
      let kindSet := prms.map Prod.snd
      let info :=
        if RouteParameter.DYNAMIC_PART ∈ kindSet then request.match_info else []
      let query :=
        if RouteParameter.QUERY ∈ kindSet then request.query else []
      match (if RouteParameter.QUERY_OR_POST ∈ kindSet then
          Except.error postAttributeError
        else Except.ok ([] : List (String × String))) with
      | Except.error e => Except.error e
      | Except.ok post =>
        let kwargs := prms.map
          (fun nk => (nk.1, bindParam nk.2 route.program_class info query post nk.1))
        match prog.fn kwargs with
        | Except.error e => Except.error e
        | Except.ok (ProgResult.pstr s) => Except.ok (some s)
        | Except.ok (ProgResult.pdict vars) =>
          match route.template with
          | some t => Except.ok (some (render t vars))
          | none => Except.ok none

/-- A route-table entry, restricted to the fields that the merge question
observes: programs and templates are identified by name. -/
structure TableRoute where
  path : String
  method : String
  program : Option String
  template : Option String
deriving DecidableEq

/-- The router's `self._routes` dict, keyed by `(method, path)`. -/
abbrev RouteTable : Type := List ((String × String) × TableRoute)

/-- Python dict assignment `d[k] = v`: replace in place if the key is
present, else append. -/
def dictInsert : RouteTable → (String × String) → TableRoute → RouteTable
  | [], k, v => [(k, v)]
  | (k0, v0) :: rest, k, v =>
    if k0 = k then (k, v) :: rest else (k0, v0) :: dictInsert rest k v

/-- Python dict lookup `d.get(k)`. -/
def dictGet : RouteTable → (String × String) → Option TableRoute
  | [], _ => none
  | (k0, v0) :: rest, k => if k0 = k then some v0 else dictGet rest k

/-- The per-method body of `router.py:_load_program`:
`self._routes[(method, path)] = PygWebRoute(self, path, method,
program=handler, program_path=file_path)` — an unconditional assignment of
a fresh route whose `template` is `None`. -/
def loadProgramRoute (t : RouteTable) (path method prog : String) : RouteTable :=
  dictInsert t (method, path) ⟨path, method, some prog, none⟩

/-- The per-method body of `router.py:_load_template`: fetch the route at
`(method, path)`; if present, set its `template` attribute, else create a
template-only route. -/
def loadTemplateRoute (t : RouteTable) (path method tmpl : String) : RouteTable :=
  match dictGet t (method, path) with
  | some r => dictInsert t (method, path) { r with template := some tmpl }
  | none => dictInsert t (method, path) ⟨path, method, none, some tmpl⟩

/-- The Python type name of a decoded JSON value, standing in for the
`f"{type(...)} received"` interpolation of `websocket.py:parse` (the
`<class ...>` wrapper of the Python repr is not reproduced; only the
distinctness of the messages matters below). -/
def pyTypeName : JValue → String
  | JValue.null => "NoneType"
  | JValue.bool _ => "bool"
  | JValue.num _ => "int"
  | JValue.str _ => "str"
  | JValue.arr _ => "list"
  | JValue.obj _ => "dict"

/-- `websocket.py:parse` error for a decoded value that is not a list. -/
def notAListMsg : String :=
  "the packet should be a list [packet name, \x7barg1: whatever, ...\x7d]"

/-- `websocket.py:parse` error for a list whose length is not two. -/
def twoElemsMsg : String :=
  "two (2) elements should be included in the list: the packet name " ++
    "(as a string) and the argments (as a dictionary).  It can be an " ++
    "empty dictionary, but it has to be present."

/-- `websocket.py:parse` error for a first element that is not a string. -/
def firstElemMsg (v : JValue) : String :=
  "the first element should be a string, but " ++ pyTypeName v ++ " received"

/-- `websocket.py:parse` error for a second element that is not a dictionary. -/
def secondElemMsg (v : JValue) : String :=
  "the second element should be a dictionary, but " ++ pyTypeName v ++ " received"

/-- `websocket.py:PygWebWSRouter.parse`.  The input models the result of
`json.loads(message)`: `.error err` is a `json.JSONDecodeError` with text
`err`, which `parse` returns as the error string.  The source's final
check, that every key of the second element is a string, can never fail on
a `json.loads` result (JSON object keys are strings) and is always true of
a `JValue.obj`, so it does not appear as a branch here. -/
def wsParse (decoded : Except String JValue) :
    Except String (String × List (String × JValue)) :=
  match decoded with
  | Except.error err => Except.error err
  | Except.ok parsed =>
    match parsed with
    | JValue.arr [first, second] =>
      match first with
      | JValue.str name =>
        match second with
        | JValue.obj args => Except.ok (name, args)
        | other => Except.error (secondElemMsg other)
      | other => Except.error (firstElemMsg other)
    | JValue.arr _ => Except.error twoElemsMsg
    | _ => Except.error notAListMsg

/-- A WebSocket packet handler: a coroutine (awaited once, returning a
value or raising) or an async generator (iterated to completion, yielding a
list of values and then possibly raising). -/
inductive WSHandler where
  | coro : (List (String × JValue) → Except String JValue) → WSHandler
  | agen : (List (String × JValue) → List JValue × Option String) → WSHandler

/-- A `PygWebPacket`, at the interface `handle_message` consumes:
`validate` models `packet.validator(**args)` followed by
`arguments.dict()` — it either returns the validated arguments or raises a
`pydantic.ValidationError` whose text it carries. -/
structure WSPacket where
  path : String
  validate : List (String × JValue) → Except String (List (String × JValue))
  handler : WSHandler

/-- The WS router's `self._packets` dict lookup, `self._packets.get(path)`. -/
def lookupPacket : List (String × WSPacket) → String → Option WSPacket
  | [], _ => none
  | (k, p) :: rest, path => if k = path then some p else lookupPacket rest path

/-- `packet.py:PygWebPacket.handle`: invoke the handler with the validated
arguments.  A coroutine result that is a dict is serialized and sent as one
frame; any other result sends nothing.  An async generator is iterated; each
yielded dict is serialized and sent as its own frame, in yield order.
Returns the outbound frames together with the exception, if any, that the
handler raised (nothing in this method catches it). -/
def packetHandle (p : WSPacket) (args : List (String × JValue)) :
    List String × Option String :=
  match p.handler with
  | WSHandler.coro f =>
    match f args with
    | Except.error e => ([], some e)
    | Except.ok r => if r.isObj then ([serialize r], none) else ([], none)
  | WSHandler.agen f =>
    let (yields, exc) := f args
    ((yields.filter JValue.isObj).map serialize, exc)

/-- An `{"error": msg}` reply frame: `json.dumps({"error": result})`. -/
def errorFrame (msg : String) : String :=
  serialize (JValue.obj [("error", JValue.str msg)])

/-- The observable outcome of handling one message (or a whole message
sequence): the frames sent over the socket in order, the paths of the
packets whose handler was invoked (instrumentation recording that
`packet.handle` was evaluated), and the exception that escaped, if any. -/
structure MsgOutcome where
  frames : List String
  invoked : List String
  exc : Option String
deriving DecidableEq

/-- `websocket.py:PygWebWSRouter.handle_message`: parse the envelope
(an error string is sent back as an `{"error": ...}` frame), resolve the
packet name (absence produces the `"the packet name ... is not valid"`
frame), validate the arguments (a `ValidationError` text is sent back as an
error frame), then invoke `packet.handle`; an exception raised by the
handler is not caught here and escapes (`exc`). -/
def handleMessage (packets : List (String × WSPacket))
    (decoded : Except String JValue) : MsgOutcome :=
  match wsParse decoded with
  | Except.error e => ⟨[errorFrame e], [], none⟩
  | Except.ok (path, args) =>
    match lookupPacket packets path with
    | none => ⟨[errorFrame ("the packet name " ++ path ++ " is not valid")], [], none⟩
    | some p =>
      match p.validate args with
      | Except.error e => ⟨[errorFrame (toString e)], [], none⟩
      | Except.ok validated =>
        let (frames, exc) := packetHandle p validated
        ⟨frames, [path], exc⟩

/-- One inbound frame of the `async for msg in ws` loop of
`websocket.py:handle`: a TEXT frame (already decoded by the JSON codec
model), an ERROR frame, or any other frame type (ignored by the loop body). -/
inductive WSMsg where
  | text : Except String JValue → WSMsg
  | errorType : WSMsg
  | otherType : WSMsg

/-- `websocket.py:PygWebWSRouter.handle`, the per-connection read loop:
TEXT frames are dispatched through `handle_message` (whose exceptions are
not caught, so they abort the loop and escape to the embedding transport,
leaving the remaining inbound frames unprocessed); an ERROR frame breaks
the loop; other frame types are skipped. -/
def wsLoop (packets : List (String × WSPacket)) : List WSMsg → MsgOutcome
  | [] => ⟨[], [], none⟩
  | WSMsg.errorType :: _ => ⟨[], [], none⟩
  | WSMsg.otherType :: rest => wsLoop packets rest
  | WSMsg.text m :: rest =>
    let out := handleMessage packets m
    match out.exc with
    | some e => ⟨out.frames, out.invoked, some e⟩
    | none =>
      let tail := wsLoop packets rest
      ⟨out.frames ++ tail.frames, out.invoked ++ tail.invoked, tail.exc⟩

/-- The dynamic-segment rewrite of `router.py:_make_path_from`: a part that
starts with `(` and ends with `)` becomes `{` + `part[1:-1]` + `}`
(`part[1:-1]` is `drop 1` then `dropLast`); other parts are unchanged. -/
def rewriteDynamic (part : List Char) : List Char :=
  if part.head? = some '(' ∧ part.getLast? = some ')' then
    '\x7b' :: (part.drop 1).dropLast ++ ['\x7d']
  else part

/-- `router.py:_make_path_from`.  The input `Path` is given by its parent
directory components (`path.parent.as_posix().split("/")`, empty when the
parent is `"."`) and its stem.  A stem equal to `index` contributes an
empty trailing segment; every segment is then passed through the dynamic
rewrite, and the segments are joined with `/` behind a leading `/`. -/
def make_path_from (parents : List (List Char)) (stem : List Char) : List Char :=
  let parts := parents ++ [if stem = "index".data then [] else stem]
  let parts := parts.map rewriteDynamic
  '/' :: joinSlash parts

/-! ## Theorems -/

/-- C2, counterexample.  Route-table merge is *not* commutative: for the key
`(GET, /a)`, registering the program `prog` and then the template `tmpl`
yields a table whose route has both set, while registering the template
first and then the program yields a table whose route has `template = none`,
because `_load_program` assigns a fresh route unconditionally.  The two
resulting tables differ. -/
theorem route_merge_not_commutative_cex :
    loadTemplateRoute (loadProgramRoute [] "/a" "GET" "prog") "/a" "GET" "tmpl" ≠
      loadProgramRoute (loadTemplateRoute [] "/a" "GET" "tmpl") "/a" "GET" "prog" := by
  decide

/-- C2, amended.  Registering a program and then a template for the same
`(method, path)` key yields a Route with both `program` and `template` set,
but registering the template first and then the program yields a Route with
only the program set: `_load_program` unconditionally overwrites the
existing entry with a fresh template-free route. -/
theorem route_merge_program_overwrites (path method prog tmpl : String) :
    dictGet (loadTemplateRoute (loadProgramRoute [] path method prog) path method tmpl)
        (method, path) = some ⟨path, method, some prog, some tmpl⟩ ∧
      dictGet (loadProgramRoute (loadTemplateRoute [] path method tmpl) path method prog)
        (method, path) = some ⟨path, method, some prog, none⟩ := by
  constructor <;>
    simp [loadProgramRoute, loadTemplateRoute, dictInsert, dictGet]

/-- C3.  For a route with no program, `PygWebRoute.handle` returns `None`
(no response at all): the whole method body is guarded by
`if self.program:`, so an attached template is never rendered.  (This is
where the code diverges from its own docstring and from the spec, which
say a template-only route renders the template with no variables.) -/
theorem template_only_route_returns_none (route : Route)
    (render : String → List (String × String) → String) (request : WebRequest)
    (hp : route.program = none) :
    routeHandle route render request = Except.ok none := by
  simp [routeHandle, hp]

/-- A concrete template-only route: `GET /` with template `page.jj2`. -/
def c3route : Route := ⟨"/", "GET", none, false, some "page.jj2"⟩

/-- Witness for C3: on the concrete template-only route, even with a
renderer that would happily produce text, the dispatch returns `None`. -/
theorem template_only_route_returns_none_witness :
    c3route.program = none ∧ c3route.template = some "page.jj2" ∧
      routeHandle c3route (fun _ _ => "rendered page") ⟨[], [], []⟩ = Except.ok none :=
  ⟨rfl, rfl, template_only_route_returns_none c3route (fun _ _ => "rendered page") ⟨[], [], []⟩ rfl⟩

/-- C9.  A well-formed envelope whose name is not a key of the packet table
produces exactly one reply frame, `{"error": "the packet name <name> is not
valid"}`, and invokes no packet handler. -/
theorem unknown_packet_error_reply (packets : List (String × WSPacket))
    (m : Except String JValue) (path : String) (args : List (String × JValue))
    (hparse : wsParse m = Except.ok (path, args))
    (hfind : lookupPacket packets path = none) :
    handleMessage packets m =
      ⟨[errorFrame ("the packet name " ++ path ++ " is not valid")], [], none⟩ := by
  simp [handleMessage, hparse, hfind]

/-- The decoded envelope `["ping", {}]`. -/
def pingMsg : Except String JValue :=
  Except.ok (JValue.arr [JValue.str "ping", JValue.obj []])

/-- Witness for C9: against an empty packet table, `["ping", {}]` yields
exactly the frame `{"error": "the packet name ping is not valid"}` and the
handler of no packet is invoked. -/
theorem unknown_packet_error_reply_witness :
    wsParse pingMsg = Except.ok ("ping", []) ∧
      lookupPacket [] "ping" = none ∧
      handleMessage [] pingMsg =
        ⟨["\x7b\"error\": \"the packet name ping is not valid\"\x7d"], [], none⟩ := by
  refine ⟨rfl, rfl, ?_⟩
  rw [unknown_packet_error_reply [] pingMsg "ping" [] rfl rfl]
  rfl

/-- C1, evaluation of the code at the failing input class.  Whenever any
handler parameter is classified `QUERY_OR_POST`, `PygWebRoute.handle`
raises `AttributeError` at `post = await query.post()` (the local `query`
mapping has no `post` attribute): the POST body is never read, the program
is never invoked, and no query-or-post binding is ever produced. -/
theorem query_or_post_dispatch_raises (route : Route) (prog : RouteProgram)
    (render : String → List (String × String) → String) (request : WebRequest)
    (prms : List (String × RouteParameter))
    (hp : route.program = some prog)
    (hparams : extrapolateProgramParams route.path route.method
        route.program_class prog.params = Except.ok prms)
    (hq : RouteParameter.QUERY_OR_POST ∈ prms.map Prod.snd) :
    routeHandle route render request = Except.error postAttributeError := by
  simp [routeHandle, hp, hparams, hq]

/-- The POST route of the claim: `POST /submit` with a handler declaring
one parameter `name`. -/
def c1route : Route :=
  ⟨"/submit", "POST",
    some ⟨["name"], fun _ => Except.ok (ProgResult.pstr "ok")⟩, false, none⟩

/-- The request of the claim: `name` absent from the query, present in the
POST body as `"alice"`. -/
def c1request : WebRequest := ⟨[], [], [("name", "alice")]⟩

/-- Witness for C1: on the concrete POST route, the parameter `name` is
classified `QUERY_OR_POST`, and the dispatch raises `AttributeError`
instead of binding `name` to `"alice"`. -/
theorem query_or_post_dispatch_raises_witness :
    extrapolateProgramParams "/submit" "POST" false ["name"] =
        Except.ok [("name", RouteParameter.QUERY_OR_POST)] ∧
      routeHandle c1route (fun _ _ => "") c1request = Except.error postAttributeError := by
  refine ⟨rfl, ?_⟩
  exact query_or_post_dispatch_raises c1route
    ⟨["name"], fun _ => Except.ok (ProgResult.pstr "ok")⟩ (fun _ _ => "") c1request
    [("name", RouteParameter.QUERY_OR_POST)] rfl rfl (by decide)

/-- C10.  For a route with a program but no attached template, whenever the
dispatch completes with a response and the program's result is a mapping
(not a plain string), the response is `None`: `handle` falls off the end
and no serialized form of the result is produced. -/
theorem non_string_result_no_body (route : Route) (prog : RouteProgram)
    (render : String → List (String × String) → String) (request : WebRequest)
    (v : Option String)
    (hp : route.program = some prog)
    (ht : route.template = none)
    (hfn : ∀ kw, ∃ vars, prog.fn kw = Except.ok (ProgResult.pdict vars))
    (hok : routeHandle route render request = Except.ok v) :
    v = none := by
  simp only [routeHandle, hp] at hok
  split at hok
  · cases hok
  next prms hprms =>
    split at hok
    · cases hok
    next post hpost =>
      obtain ⟨vars, hv⟩ := hfn (prms.map
        (fun nk => (nk.1, bindParam nk.2 route.program_class
          (if RouteParameter.DYNAMIC_PART ∈ prms.map Prod.snd then request.match_info else [])
          (if RouteParameter.QUERY ∈ prms.map Prod.snd then request.query else [])
          post nk.1)))
      rw [hv] at hok
      rw [ht] at hok
      cases hok
      rfl

/-- A concrete `GET /data` route whose program returns a mapping and which
has no template. -/
def c10route : Route :=
  ⟨"/data", "GET", some ⟨[], fun _ => Except.ok (ProgResult.pdict [("k", "v")])⟩,
    false, none⟩

/-- Witness for C10: the concrete route's dispatch completes and its
response is `None`. -/
theorem non_string_result_no_body_witness :
    c10route.template = none ∧
      routeHandle c10route (fun _ _ => "") ⟨[], [], []⟩ = Except.ok none ∧
      (none : Option String) = none := by
  refine ⟨rfl, rfl, ?_⟩
  exact non_string_result_no_body c10route
    ⟨[], fun _ => Except.ok (ProgResult.pdict [("k", "v")])⟩ (fun _ _ => "")
    ⟨[], [], []⟩ none rfl rfl (fun _ => ⟨[("k", "v")], rfl⟩) rfl

/-- C4, amended.  For an inbound message that parses, resolves and
validates successfully, an exception raised inside the invoked coroutine
handler produces no error frame and no close initiated by the engine, but
it is not caught anywhere in `handle_message` or in the read loop of
`handle`: it escapes the loop, so the remaining inbound messages of the
connection are not processed by this engine (their frames and invocations
do not appear in the outcome). -/
theorem ws_handler_exception_aborts_loop (packets : List (String × WSPacket))
    (m : Except String JValue) (rest : List WSMsg) (path : String)
    (args v : List (String × JValue)) (p : WSPacket)
    (f : List (String × JValue) → Except String JValue) (e : String)
    (hparse : wsParse m = Except.ok (path, args))
    (hfind : lookupPacket packets path = some p)
    (hval : p.validate args = Except.ok v)
    (hh : p.handler = WSHandler.coro f)
    (hf : f v = Except.error e) :
    wsLoop packets (WSMsg.text m :: rest) = ⟨[], [path], some e⟩ := by
  have hm : handleMessage packets m = ⟨[], [path], some e⟩ := by
    simp [handleMessage, hparse, hfind, hval, packetHandle, hh, hf]
  simp [wsLoop, hm]

/-- The packet table of the C4 scenario: `boom` is a coroutine handler that
raises, `echo` a coroutine handler that replies `{"text": "hi"}`; both
validators accept anything. -/
def c4Packets : List (String × WSPacket) :=
  [("boom", ⟨"boom", fun a => Except.ok a,
      WSHandler.coro (fun _ => Except.error "RuntimeError: boom")⟩),
    ("echo", ⟨"echo", fun a => Except.ok a,
      WSHandler.coro (fun _ => Except.ok (JValue.obj [("text", JValue.str "hi")]))⟩)]

/-- The decoded envelope `["boom", {}]`. -/
def c4BoomMsg : Except String JValue :=
  Except.ok (JValue.arr [JValue.str "boom", JValue.obj []])

/-- The decoded envelope `["echo", {}]`. -/
def c4EchoMsg : Except String JValue :=
  Except.ok (JValue.arr [JValue.str "echo", JValue.obj []])

/-- C4, counterexample to the claim as stated.  With `["boom", {}]`
followed by the well-formed `["echo", {}]`, the engine does *not* continue
processing subsequent messages: the handler exception escapes the read
loop, no frame at all is sent (in particular not `echo`'s reply
`{"text": "hi"}`), and `echo`'s handler is never invoked. -/
theorem ws_handler_exception_cex :
    (wsLoop c4Packets [WSMsg.text c4BoomMsg, WSMsg.text c4EchoMsg]).frames = [] ∧
      (wsLoop c4Packets [WSMsg.text c4BoomMsg, WSMsg.text c4EchoMsg]).invoked = ["boom"] ∧
      (wsLoop c4Packets [WSMsg.text c4BoomMsg, WSMsg.text c4EchoMsg]).exc =
        some "RuntimeError: boom" :=
  ⟨rfl, rfl, rfl⟩

/-- Witness for C4 (amended): the concrete `boom` scenario instantiates the
theorem. -/
theorem ws_handler_exception_aborts_loop_witness :
    wsParse c4BoomMsg = Except.ok ("boom", []) ∧
      wsLoop c4Packets [WSMsg.text c4BoomMsg, WSMsg.text c4EchoMsg] =
        ⟨[], ["boom"], some "RuntimeError: boom"⟩ := by
  refine ⟨rfl, ?_⟩
  exact ws_handler_exception_aborts_loop c4Packets c4BoomMsg [WSMsg.text c4EchoMsg]
    "boom" [] [] _ (fun _ => Except.error "RuntimeError: boom") "RuntimeError: boom"
    rfl rfl rfl rfl rfl

/-- C7.  A streaming (async-generator) handler that completes normally
after yielding only mappings produces exactly one outbound frame per yield,
serialized in yield order, and the connection then keeps processing the
remaining messages (their outcome is appended). -/
theorem streaming_handler_frames (packets : List (String × WSPacket))
    (m : Except String JValue) (rest : List WSMsg) (path : String)
    (args v : List (String × JValue)) (p : WSPacket)
    (f : List (String × JValue) → List JValue × Option String)
    (yields : List JValue)
    (hparse : wsParse m = Except.ok (path, args))
    (hfind : lookupPacket packets path = some p)
    (hval : p.validate args = Except.ok v)
    (hh : p.handler = WSHandler.agen f)
    (hf : f v = (yields, none))
    (hobj : ∀ y ∈ yields, y.isObj = true) :
    wsLoop packets (WSMsg.text m :: rest) =
      ⟨yields.map serialize ++ (wsLoop packets rest).frames,
        path :: (wsLoop packets rest).invoked,
        (wsLoop packets rest).exc⟩ := by
  have hfilter : yields.filter JValue.isObj = yields :=
    List.filter_eq_self.mpr hobj
  have hm : handleMessage packets m = ⟨yields.map serialize, [path], none⟩ := by
    simp [handleMessage, hparse, hfind, hval, packetHandle, hh, hf, hfilter]
  simp [wsLoop, hm]

/-- The packet table of the C7 scenario: `stream` yields `{"i": 0}`,
`{"i": 1}`, `{"i": 2}` and completes. -/
def c7Packets : List (String × WSPacket) :=
  [("stream", ⟨"stream", fun a => Except.ok a,
      WSHandler.agen (fun _ =>
        ([JValue.obj [("i", JValue.num 0)], JValue.obj [("i", JValue.num 1)],
          JValue.obj [("i", JValue.num 2)]], none))⟩)]

/-- The decoded envelope `["stream", {"n": 3}]`. -/
def c7StreamMsg : Except String JValue :=
  Except.ok (JValue.arr [JValue.str "stream", JValue.obj [("n", JValue.num 3)]])

/-- Witness for C7: the three yields of the concrete streaming handler are
sent as exactly three frames in order, and the loop terminates normally
(the connection stays open). -/
theorem streaming_handler_frames_witness :
    wsParse c7StreamMsg = Except.ok ("stream", [("n", JValue.num 3)]) ∧
      wsLoop c7Packets [WSMsg.text c7StreamMsg] =
        ⟨["\x7b\"i\": 0\x7d", "\x7b\"i\": 1\x7d", "\x7b\"i\": 2\x7d"],
          ["stream"], none⟩ := by
  refine ⟨rfl, ?_⟩
  rw [streaming_handler_frames c7Packets c7StreamMsg [] "stream"
    [("n", JValue.num 3)] [("n", JValue.num 3)] _
    (fun _ => ([JValue.obj [("i", JValue.num 0)], JValue.obj [("i", JValue.num 1)],
      JValue.obj [("i", JValue.num 2)]], none))
    [JValue.obj [("i", JValue.num 0)], JValue.obj [("i", JValue.num 1)],
      JValue.obj [("i", JValue.num 2)]]
    rfl rfl rfl rfl rfl (by decide)]
  rfl

/-- C8.  For an inbound text message that fails to decode as JSON or
violates the envelope structure (`parse` returns an error string `e`), the
engine sends exactly one reply, the frame `{"error": e}`, does not close
the connection, and still processes the subsequent messages (whose outcome
is appended unchanged); moreover the structural violation classes carry
pairwise distinct messages, whatever the offending values. -/
theorem parse_error_reply_spec (packets : List (String × WSPacket))
    (m : Except String JValue) (rest : List WSMsg) (e : String)
    (h : wsParse m = Except.error e) :
    wsLoop packets (WSMsg.text m :: rest) =
      ⟨errorFrame e :: (wsLoop packets rest).frames,
        (wsLoop packets rest).invoked, (wsLoop packets rest).exc⟩ ∧
      (∀ v w : JValue,
        notAListMsg ≠ twoElemsMsg ∧ notAListMsg ≠ firstElemMsg v ∧
          notAListMsg ≠ secondElemMsg w ∧ twoElemsMsg ≠ firstElemMsg v ∧
          twoElemsMsg ≠ secondElemMsg w ∧ firstElemMsg v ≠ secondElemMsg w) := by
  constructor
  · have hm : handleMessage packets m = ⟨[errorFrame e], [], none⟩ := by
      simp [handleMessage, h]
    simp [wsLoop, hm]
  · intro v w
    cases v <;> cases w <;>
      simp only [firstElemMsg, secondElemMsg, pyTypeName] <;>
      exact ⟨by decide, by decide, by decide, by decide, by decide, by decide⟩

/-- The decode failure of the text frame `not-json`, with the
`json.JSONDecodeError` text that `json.loads` produces for it. -/
def c8BadMsg : Except String JValue :=
  Except.error "Expecting value: line 1 column 1 (char 0)"

/-- Witness for C8: after the malformed frame is answered with a single
`{"error": ...}` frame, the subsequent well-formed `["echo", {}]` is still
processed and its reply sent. -/
theorem parse_error_reply_spec_witness :
    wsParse c8BadMsg = Except.error "Expecting value: line 1 column 1 (char 0)" ∧
      wsLoop c4Packets [WSMsg.text c8BadMsg, WSMsg.text c4EchoMsg] =
        ⟨["\x7b\"error\": \"Expecting value: line 1 column 1 (char 0)\"\x7d",
            "\x7b\"text\": \"hi\"\x7d"], ["echo"], none⟩ := by
  refine ⟨rfl, ?_⟩
  rw [(parse_error_reply_spec c4Packets c8BadMsg [WSMsg.text c4EchoMsg]
    "Expecting value: line 1 column 1 (char 0)" rfl).1]
  rfl

/-- Helper: a parameter named `self` on a route with no program class makes
`_extrapolate_program_params` raise, wherever it occurs in the declaration
list. -/
theorem extrapolate_self_error (path method : String) (params : List String)
    (hself : "self" ∈ params) :
    ∃ e, extrapolateProgramParams path method false params = Except.error e := by
  induction params with
  | nil => cases hself
  | cons a rest ih =>
    rcases List.mem_cons.mp hself with rfl | hmem
    · exact ⟨_, rfl⟩
    · rcases hc : classifyParam path method false a with e | kind
      · exact ⟨e, by simp [extrapolateProgramParams, hc]⟩
      · rcases ih hmem with ⟨e, he⟩
        exact ⟨e, by simp [extrapolateProgramParams, hc, he]⟩

/-- C6.  Parameter classification follows the claimed rule, in order of the
checks: `self` is `INSTANCE` and raises at route construction when the
route has no program class; `request` is `REQUEST`; a name among the path
template's dynamic segments is `DYNAMIC_PART`; anything else is
`QUERY_OR_POST` exactly for POST/PUT and `QUERY` exactly for the remaining
methods GET, HEAD, DELETE, OPTIONS, PATCH. -/
theorem classify_parameters_spec (path method name : String)
    (params : List String) (hasClass : Bool)
    (hm : method ∈ WEB_METHODS) :
    (name = "self" → hasClass = true →
      classifyParam path method hasClass name = Except.ok RouteParameter.INSTANCE) ∧
    (name = "self" → hasClass = false →
      ∃ e, classifyParam path method hasClass name = Except.error e) ∧
    (hasClass = false → "self" ∈ params →
      ∃ e, extrapolateProgramParams path method hasClass params = Except.error e) ∧
    (name ≠ "self" → name = "request" →
      classifyParam path method hasClass name = Except.ok RouteParameter.REQUEST) ∧
    (name ≠ "self" → name ≠ "request" → name ∈ dynamicParts path →
      classifyParam path method hasClass name = Except.ok RouteParameter.DYNAMIC_PART) ∧
    (name ≠ "self" → name ≠ "request" → name ∉ dynamicParts path →
      classifyParam path method hasClass name =
        Except.ok (if method = "POST" ∨ method = "PUT" then
          RouteParameter.QUERY_OR_POST else RouteParameter.QUERY) ∧
      ((method = "GET" ∨ method = "HEAD" ∨ method = "DELETE" ∨
          method = "OPTIONS" ∨ method = "PATCH") ↔
        ¬(method = "POST" ∨ method = "PUT"))) := by
  refine ⟨?_, ?_, ?_, ?_, ?_, ?_⟩
  · rintro rfl h2
    simp [classifyParam, h2]
  · rintro rfl h2
    subst h2
    exact ⟨_, rfl⟩
  · rintro rfl hmem
    exact extrapolate_self_error path method params hmem
  · rintro h1 rfl
    simp [classifyParam, h1]
  · intro h1 h2 h3
    simp [classifyParam, h1, h2, h3]
  · intro h1 h2 h3
    constructor
    · by_cases hpp : method = "POST" ∨ method = "PUT"
      · have : method ∈ ACCEPT_POST_DATA := by
          rcases hpp with rfl | rfl <;> simp [ACCEPT_POST_DATA]
        simp [classifyParam, h1, h2, h3, this, hpp]
      · have : method ∉ ACCEPT_POST_DATA := by
          simp only [ACCEPT_POST_DATA, List.mem_cons, List.not_mem_nil, or_false]
          exact fun h => hpp (by simpa using h)
        simp [classifyParam, h1, h2, h3, this, hpp]
    · simp only [WEB_METHODS, List.mem_cons, List.not_mem_nil, or_false] at hm
      rcases hm with rfl | rfl | rfl | rfl | rfl | rfl | rfl <;> decide

/-- Witness for C6, at a `POST /user/{id}` route: `id` is classified
`DYNAMIC_PART`, a plain parameter `name` is classified `QUERY_OR_POST`, and
a parameter list declaring `self` without a program class makes
construction fail. -/
theorem classify_parameters_spec_witness :
    "POST" ∈ WEB_METHODS ∧
      classifyParam "/user/\x7bid\x7d" "POST" false "id" =
        Except.ok RouteParameter.DYNAMIC_PART ∧
      classifyParam "/user/\x7bid\x7d" "POST" false "name" =
        Except.ok RouteParameter.QUERY_OR_POST ∧
      (∃ e, extrapolateProgramParams "/user/\x7bid\x7d" "POST" false ["self", "id"] =
        Except.error e) := by
  refine ⟨by decide, ?_, ?_, ?_⟩
  · exact (classify_parameters_spec "/user/\x7bid\x7d" "POST" "id" [] false
      (by decide)).2.2.2.2.1 (by decide) (by decide) (by decide)
  · have h := (classify_parameters_spec "/user/\x7bid\x7d" "POST" "name" [] false
      (by decide)).2.2.2.2.2 (by decide) (by decide) (by decide)
    rw [h.1]
    simp
  · exact (classify_parameters_spec "/user/\x7bid\x7d" "POST" "x" ["self", "id"] false
      (by decide)).2.2.1 rfl (by decide)

/-- A slash-free character list contains no double slash. -/
theorem noSlash_hasDoubleSlash (l : List Char) (h : '/' ∉ l) :
    hasDoubleSlash l = false := by
  induction l with
  | nil => rfl
  | cons a rest ih =>
    have ha : a ≠ '/' := fun e => h (e ▸ List.mem_cons_self a rest)
    have hrest : '/' ∉ rest := fun hm => h (List.mem_cons_of_mem a hm)
    cases rest with
    | nil => rfl
    | cons b rest' =>
      have hb : b ≠ '/' := fun e => hrest (e ▸ List.mem_cons_self b rest')
      simp only [hasDoubleSlash, ih hrest, Bool.or_false]
      simp [ha]

/-- A slash followed by a slash-free tail has no double slash. -/
theorem hds_slash_cons (l : List Char) (h : '/' ∉ l) :
    hasDoubleSlash ('/' :: l) = false := by
  cases l with
  | nil => rfl
  | cons c rest =>
    have hc : c ≠ '/' := fun e => h (e ▸ List.mem_cons_self c rest)
    simp only [hasDoubleSlash, noSlash_hasDoubleSlash _ h, Bool.or_false]
    simp [hc]

/-- Prepending a slash-free segment to `'/' :: tail` keeps the string free
of double slashes. -/
theorem hds_seg_append (p tail : List Char) (hp : '/' ∉ p)
    (ht : hasDoubleSlash ('/' :: tail) = false) :
    hasDoubleSlash (p ++ '/' :: tail) = false := by
  induction p with
  | nil => simpa using ht
  | cons c p' ih =>
    have hc : c ≠ '/' := fun e => hp (e ▸ List.mem_cons_self c p')
    have hp' : '/' ∉ p' := fun hm => hp (List.mem_cons_of_mem c hm)
    cases p' with
    | nil =>
      simp only [List.nil_append, List.cons_append, hasDoubleSlash, ht, Bool.or_false]
      simp [hc]
    | cons d p'' =>
      have hd : d ≠ '/' := fun e => hp' (e ▸ List.mem_cons_self d p'')
      simp only [List.cons_append, hasDoubleSlash, List.append_eq] at ih ⊢
      rw [ih hp']
      simp [hc]

/-- The compiled path never contains a double slash: with the parent
segments nonempty and slash-free and the final segment slash-free, the
leading slash plus slash-join is double-slash-free. -/
theorem hds_joinSlash (ps : List (List Char)) (last : List Char)
    (hps : ∀ p ∈ ps, p ≠ [] ∧ '/' ∉ p) (hlast : '/' ∉ last) :
    hasDoubleSlash ('/' :: joinSlash (ps ++ [last])) = false := by
  induction ps with
  | nil => simpa [joinSlash] using hds_slash_cons last hlast
  | cons p ps' ih =>
    obtain ⟨hne, hnp⟩ := hps p (List.mem_cons_self p ps')
    have hps' : ∀ q ∈ ps', q ≠ [] ∧ '/' ∉ q :=
      fun q hq => hps q (List.mem_cons_of_mem p hq)
    have hj : joinSlash ((p :: ps') ++ [last]) =
        p ++ '/' :: joinSlash (ps' ++ [last]) := by
      cases ps' <;> simp [joinSlash]
    rw [hj]
    cases p with
    | nil => exact absurd rfl hne
    | cons c p' =>
      have hc : c ≠ '/' := fun e => hnp (e ▸ List.mem_cons_self c p')
      have hseg := hds_seg_append (c :: p') _ hnp (ih hps')
      simp only [List.cons_append, List.append_eq] at hseg
      simp only [List.cons_append, hasDoubleSlash, List.append_eq]
      rw [hseg]
      simp [hc]

/-- Splitting a slash-free character list yields that single segment. -/
theorem splitSlash_noSlash (p : List Char) (hp : '/' ∉ p) :
    splitSlash p = [p] := by
  induction p with
  | nil => rfl
  | cons c rest ih =>
    have hc : c ≠ '/' := fun e => hp (e ▸ List.mem_cons_self c rest)
    have hrest : '/' ∉ rest := fun hm => hp (List.mem_cons_of_mem c hm)
    simp [splitSlash, hc, ih hrest]

/-- Splitting peels a leading slash-free segment off at its following
slash. -/
theorem splitSlash_append (p rest : List Char) (hp : '/' ∉ p) :
    splitSlash (p ++ '/' :: rest) = p :: splitSlash rest := by
  induction p with
  | nil => simp [splitSlash]
  | cons c p' ih =>
    have hc : c ≠ '/' := fun e => hp (e ▸ List.mem_cons_self c p')
    have hp' : '/' ∉ p' := fun hm => hp (List.mem_cons_of_mem c hm)
    simp [splitSlash, hc, ih hp']

/-- Splitting on `/` is a left inverse of joining with `/`, for a nonempty
list of slash-free segments. -/
theorem splitSlash_joinSlash (parts : List (List Char)) (hne : parts ≠ [])
    (hp : ∀ p ∈ parts, '/' ∉ p) :
    splitSlash (joinSlash parts) = parts := by
  induction parts with
  | nil => exact absurd rfl hne
  | cons p rest ih =>
    cases rest with
    | nil => simpa [joinSlash] using splitSlash_noSlash p (hp p (List.mem_cons_self p []))
    | cons q rest' =>
      have hq : ∀ r ∈ q :: rest', '/' ∉ r :=
        fun r hr => hp r (List.mem_cons_of_mem p hr)
      have : joinSlash (p :: q :: rest') = p ++ '/' :: joinSlash (q :: rest') := rfl
      rw [this, splitSlash_append p _ (hp p (List.mem_cons_self p (q :: rest'))),
        ih (by simp) hq]

/-- The dynamic rewrite preserves slash-freeness. -/
theorem rewriteDynamic_noSlash (p : List Char) (hp : '/' ∉ p) :
    '/' ∉ rewriteDynamic p := by
  unfold rewriteDynamic
  split
  · intro hmem
    simp only [List.mem_cons, List.mem_append, List.mem_singleton] at hmem
    rcases hmem with (h | h) | h
    · exact absurd h (by decide)
    · exact hp (List.drop_subset 1 p (List.dropLast_subset _ h))
    · exact absurd h (by decide)
  · exact hp

/-- The dynamic rewrite preserves nonemptiness. -/
theorem rewriteDynamic_ne_nil (p : List Char) (hp : p ≠ []) :
    rewriteDynamic p ≠ [] := by
  unfold rewriteDynamic
  split
  · simp
  · exact hp

/-- C5.  For a file-system path whose parent segments are nonempty and
slash-free and whose stem is slash-free, the compiled URI template starts
with `/`; it never contains `//`; splitting it on `/` recovers exactly a
leading empty segment followed by the input segments, each passed through
the dynamic rewrite, in their original positions and order (so a stem equal
to `index` becomes an empty trailing segment); a parenthesized segment
`(name)` rewrites to `{name}` with the captured name preserved; and
concretely `blog/index` compiles to `/blog/` and a root-level `index` to
exactly `/`. -/
theorem make_path_from_spec (parents : List (List Char)) (stem : List Char)
    (hpar : ∀ p ∈ parents, p ≠ [] ∧ '/' ∉ p) (hstem : '/' ∉ stem) :
    (make_path_from parents stem).head? = some '/' ∧
      hasDoubleSlash (make_path_from parents stem) = false ∧
      splitSlash (make_path_from parents stem) =
        [] :: (parents ++ [if stem = "index".data then [] else stem]).map rewriteDynamic ∧
      (stem = "index".data →
        ((parents ++ [if stem = "index".data then [] else stem]).map
          rewriteDynamic).getLast? = some []) ∧
      (∀ name : List Char,
        rewriteDynamic ('(' :: (name ++ [')'])) = '\x7b' :: (name ++ ['\x7d'])) ∧
      make_path_from ["blog".data] "index".data = "/blog/".data ∧
      make_path_from [] "index".data = "/".data := by
  have hstemPart : '/' ∉ (if stem = "index".data then [] else stem) := by
    split
    · simp
    · exact hstem
  refine ⟨rfl, ?_, ?_, ?_, ?_, by decide, by decide⟩
  · show hasDoubleSlash
      ('/' :: joinSlash ((parents ++ [if stem = "index".data then [] else stem]).map
        rewriteDynamic)) = false
    rw [List.map_append]
    exact hds_joinSlash (parents.map rewriteDynamic) _
      (fun p hp => by
        obtain ⟨q, hq, rfl⟩ := List.mem_map.mp hp
        obtain ⟨hq1, hq2⟩ := hpar q hq
        exact ⟨rewriteDynamic_ne_nil q hq1, rewriteDynamic_noSlash q hq2⟩)
      (by simpa using rewriteDynamic_noSlash _ hstemPart)
  · show splitSlash
      ('/' :: joinSlash ((parents ++ [if stem = "index".data then [] else stem]).map
        rewriteDynamic)) = _
    have h1 : splitSlash
        ('/' :: joinSlash ((parents ++ [if stem = "index".data then [] else stem]).map
          rewriteDynamic)) =
        [] :: splitSlash
          (joinSlash ((parents ++ [if stem = "index".data then [] else stem]).map
            rewriteDynamic)) := by
      simp [splitSlash]
    rw [h1, splitSlash_joinSlash _ (by simp) ?_]
    intro p hp
    obtain ⟨q, hq, rfl⟩ := List.mem_map.mp hp
    rcases List.mem_append.mp hq with hq' | hq'
    · exact rewriteDynamic_noSlash q (hpar q hq').2
    · rw [List.mem_singleton.mp hq']
      exact rewriteDynamic_noSlash _ hstemPart
  · intro hidx
    rw [if_pos hidx, List.map_append]
    simp [rewriteDynamic]
  · intro name
    have hcond : ('(' :: (name ++ [')'])).head? = some '(' ∧
        ('(' :: (name ++ [')'])).getLast? = some ')' := by
      refine ⟨rfl, ?_⟩
      rw [show ('(' :: (name ++ [')'])) = ('(' :: name) ++ [')'] from rfl]
      exact List.getLast?_concat _
    rw [rewriteDynamic, if_pos hcond]
    simp

/-- Witness for C5, at the path `blog/index`: the hypotheses hold, the
compiled path has no double slash, and splitting it on `/` gives the empty
leading segment, `blog`, and the empty trailing segment contributed by the
`index` stem. -/
theorem make_path_from_spec_witness :
    (∀ p ∈ [("blog".data : List Char)], p ≠ [] ∧ '/' ∉ p) ∧
      '/' ∉ "index".data ∧
      hasDoubleSlash (make_path_from ["blog".data] "index".data) = false ∧
      splitSlash (make_path_from ["blog".data] "index".data) =
        [[], "blog".data, []] := by
  refine ⟨by decide, by decide, ?_, ?_⟩
  · exact (make_path_from_spec ["blog".data] "index".data (by decide) (by decide)).2.1
  · rw [(make_path_from_spec ["blog".data] "index".data (by decide) (by decide)).2.2.1]
    decide

end PygWeb
